import Mathlib

/-!
Verification development for the deep-research chat application.

The repository wires an agentic tool-calling loop (the `ai` library's
`streamText`) to two tools — `searchWeb` (Serper search adapter) and
`scrapePages` (bulk crawl engine) — and serves it over a streaming chat
route.  The tool executors, the route control flow, and the persistence
callbacks are embedded here from the TypeScript source.  The crawl
engine (`~/scraper`), the search provider client (`~/serper`) and the
driver loop (`streamText`) live outside the repository snapshot; they
are modelled from the specification where a claim needs them.
-/

namespace DeepResearch

/-- A cooperative cancellation token.  `aborted` is the observable state
of the signal at the time the engine consults it. -/
structure AbortSignal where
  aborted : Bool
deriving DecidableEq, Repr

/-- Per-URL crawl outcome: either extracted page text or an error
description.  Mirrors the scraper's discriminated union
`{success: true, data} | {success: false, error}`. -/
inductive CrawlResult where
  | ok (data : String)
  | err (error : String)
deriving DecidableEq, Repr

/-- The `success` discriminant of a per-URL crawl outcome. -/
def CrawlResult.success : CrawlResult → Bool
  | .ok _ => true
  | .err _ => false

/-- The string the scrapePages executor extracts from a per-URL outcome:
`result.success ? result.data : result.error`. -/
def CrawlResult.payload : CrawlResult → String
  | .ok d => d
  | .err e => e

/-- One element of the engine's `results` array: a URL paired with its
crawl outcome. -/
structure UrlOutcome where
  url : String
  result : CrawlResult
deriving DecidableEq, Repr

/-- The crawl engine's batch result: overall success flag, an error
description when the batch was not fully successful, and the ordered
per-URL outcomes. -/
structure BulkCrawlResult where
  success : Bool
  error : Option String
  results : List UrlOutcome
deriving DecidableEq, Repr

/-- The outcome the engine reports for a fetch cut short by
cancellation. -/
def cancelledResult : CrawlResult := .err "Cancelled"

/-- Modelled from the spec: one URL's fate under an optional
cancellation signal.  `fetch` is the Fetch/Extract Unit's behaviour
absent cancellation; `completed` says whether this URL's fetch had
already settled when the signal fired.  Per §4.3, a fired signal makes
unstarted/in-flight fetches resolve as `Cancelled` failures while
already-completed fetches keep their outcome. -/
def fetchUnderSignal (fetch : String → CrawlResult) (completed : String → Bool)
    (signal : Option AbortSignal) (u : String) : CrawlResult :=
  match signal with
  | some s => if s.aborted && !completed u then cancelledResult else fetch u
  | none => fetch u

/-- Modelled from the spec: the Crawl Engine `bulkCrawlWebsites`
(defined in `~/scraper`, which is not part of the repository snapshot;
only its callers are).  Per §4.3 it fans the URLs out, waits for every
fetch to settle, assembles `results` in input order, and sets `success`
to the conjunction of the per-URL successes, attaching a batch error
description when any URL failed. -/
def bulkCrawlWebsites (fetch : String → CrawlResult) (completed : String → Bool)
    (urls : List String) (signal : Option AbortSignal) : BulkCrawlResult :=
  let results := urls.map (fun u => ⟨u, fetchUnderSignal fetch completed signal u⟩)
  let ok := results.all (fun r => r.result.success)
  { success := ok
  , error := if ok then none else some "Failed to crawl some websites"
  , results := results }

/-- One entry of the scrapePages tool's `results` list:
`{url, success, data}` where `data` holds extracted text on success and
the error description on failure. -/
structure ScrapeEntry where
  url : String
  success : Bool
  data : String
deriving DecidableEq, Repr

/-- The scrapePages tool's return value: `{results, error?}`. -/
structure ScrapeOutput where
  error : Option String
  results : List ScrapeEntry
deriving DecidableEq, Repr

/-- The `scrapePages.execute` tool executor, embedded from
`src/unnamed/part_000` lines 79–101 (identical in the day-3 route,
lines 151–172).  It receives the destructured `abortSignal` from the
driver but invokes `bulkCrawlWebsites({ urls })` — the signal is not
passed on.  When the batch was not fully successful it returns the
batch error alongside the per-URL entries, mapping each failed URL's
error description into `data`; otherwise it returns the entries with no
top-level error. -/
def scrapePages_execute (fetch : String → CrawlResult) (completed : String → Bool)
    (urls : List String) (abortSignal : Option AbortSignal) : ScrapeOutput :=
  let result := bulkCrawlWebsites fetch completed urls none
  if !result.success then
    { error := result.error
    , results := result.results.map (fun r => ⟨r.url, r.result.success, r.result.payload⟩) }
  else
    { error := none
    , results := result.results.map (fun r => ⟨r.url, r.result.success, r.result.payload⟩) }

theorem bulkCrawl_length (fetch : String → CrawlResult) (completed : String → Bool)
    (urls : List String) (signal : Option AbortSignal) :
    (bulkCrawlWebsites fetch completed urls signal).results.length = urls.length := by
  simp [bulkCrawlWebsites]

theorem bulkCrawl_url_eq (fetch : String → CrawlResult) (completed : String → Bool)
    (urls : List String) (signal : Option AbortSignal) (i : Nat) (h : i < urls.length) :
    ((bulkCrawlWebsites fetch completed urls signal).results.get
      ⟨i, by rw [bulkCrawl_length]; exact h⟩).url = urls.get ⟨i, h⟩ := by
  simp [bulkCrawlWebsites]

theorem bulkCrawl_error_isSome (fetch : String → CrawlResult) (completed : String → Bool)
    (urls : List String) (signal : Option AbortSignal) :
    (bulkCrawlWebsites fetch completed urls signal).error.isSome =
      !(bulkCrawlWebsites fetch completed urls signal).success := by
  unfold bulkCrawlWebsites
  by_cases h : (urls.map fun u =>
      UrlOutcome.mk u (fetchUnderSignal fetch completed signal u)).all
        (fun r => r.result.success) <;> simp [h]

theorem scrapePages_results_eq (fetch : String → CrawlResult) (completed : String → Bool)
    (urls : List String) (signal : Option AbortSignal) :
    (scrapePages_execute fetch completed urls signal).results =
      (bulkCrawlWebsites fetch completed urls none).results.map
        (fun r => ⟨r.url, r.result.success, r.result.payload⟩) := by
  unfold scrapePages_execute
  rcases h : (bulkCrawlWebsites fetch completed urls none).success <;> simp [h]

/-- C2: For every list of N input URLs, the Crawl Engine's batch result
has `results.length = N` with `results[i].url = urls[i]` for every `i`
(input order), `success = true` iff every per-URL outcome succeeded,
and the scrapePages tool's mapping of that batch preserves this length
and order one-to-one. -/
theorem crawl_batch_order_invariants (fetch : String → CrawlResult)
    (completed : String → Bool) (urls : List String) (signal : Option AbortSignal) :
    (bulkCrawlWebsites fetch completed urls signal).results.length = urls.length ∧
    (∀ i (h : i < urls.length),
      ((bulkCrawlWebsites fetch completed urls signal).results.get
        ⟨i, by rw [bulkCrawl_length]; exact h⟩).url = urls.get ⟨i, h⟩) ∧
    ((bulkCrawlWebsites fetch completed urls signal).success = true ↔
      ∀ r ∈ (bulkCrawlWebsites fetch completed urls signal).results,
        r.result.success = true) ∧
    (scrapePages_execute fetch completed urls signal).results.length = urls.length ∧
    (∀ i (h : i < urls.length),
      ((scrapePages_execute fetch completed urls signal).results.get
        ⟨i, by rw [scrapePages_results_eq, List.length_map, bulkCrawl_length]; exact h⟩).url
        = urls.get ⟨i, h⟩) := by
  refine ⟨bulkCrawl_length .., fun i h => bulkCrawl_url_eq .., ?_, ?_, ?_⟩
  · simp [bulkCrawlWebsites, List.all_eq_true]
  · rw [scrapePages_results_eq, List.length_map, bulkCrawl_length]
  · intro i h
    have := bulkCrawl_url_eq fetch completed urls none i h
    simp only [scrapePages_results_eq, List.get_eq_getElem, List.getElem_map]
    simpa [List.get_eq_getElem] using this

/-- C2 witness: the invariants instantiated on a concrete two-URL batch
with one failing fetch. -/
theorem crawl_batch_order_invariants_witness :
    ((bulkCrawlWebsites (fun u => if u = "a" then .ok "A" else .err "boom")
        (fun _ => false) ["a", "b"] none).results.length = 2) ∧
    ((bulkCrawlWebsites (fun u => if u = "a" then .ok "A" else .err "boom")
        (fun _ => false) ["a", "b"] none).results.get
          ⟨1, by rw [bulkCrawl_length]; decide⟩).url = "b" := by
  refine ⟨(crawl_batch_order_invariants (fun u => if u = "a" then .ok "A" else .err "boom")
    (fun _ => false) ["a", "b"] none).1, ?_⟩
  have h := (crawl_batch_order_invariants (fun u => if u = "a" then .ok "A" else .err "boom")
    (fun _ => false) ["a", "b"] none).2.1 1 (by decide)
  simpa using h

/-- C4: the scrapePages tool's top-level `error` field is present iff
the batch it performed was not fully successful; its `results` list
carries one `{url, success, data}` entry per URL of that batch, a
failed URL's entry carrying the failure's error description as `data`
and a successful URL's entry carrying the extracted text — the failure
is structured data in the return value, never a raised fault. -/
theorem scrapePages_error_handling (fetch : String → CrawlResult)
    (completed : String → Bool) (urls : List String) (signal : Option AbortSignal) :
    ((scrapePages_execute fetch completed urls signal).error.isSome ↔
      ¬ (bulkCrawlWebsites fetch completed urls none).success = true) ∧
    (scrapePages_execute fetch completed urls signal).results.length =
      (bulkCrawlWebsites fetch completed urls none).results.length ∧
    (∀ o ∈ (bulkCrawlWebsites fetch completed urls none).results,
      (ScrapeEntry.mk o.url o.result.success o.result.payload) ∈
        (scrapePages_execute fetch completed urls signal).results) ∧
    (∀ e ∈ (scrapePages_execute fetch completed urls signal).results,
      ∃ o ∈ (bulkCrawlWebsites fetch completed urls none).results,
        e.url = o.url ∧ e.success = o.result.success ∧
        (o.result.success = false → ∃ msg, o.result = .err msg ∧ e.data = msg) ∧
        (o.result.success = true → ∃ txt, o.result = .ok txt ∧ e.data = txt)) := by
  refine ⟨?_, ?_, ?_, ?_⟩
  · have herr := bulkCrawl_error_isSome fetch completed urls none
    unfold scrapePages_execute
    rcases h : (bulkCrawlWebsites fetch completed urls none).success <;>
      simp [h] <;> simp [h] at herr <;> simp [herr]
  · rw [scrapePages_results_eq, List.length_map]
  · intro o ho
    rw [scrapePages_results_eq]
    exact List.mem_map.mpr ⟨o, ho, rfl⟩
  · intro e he
    rw [scrapePages_results_eq] at he
    rcases List.mem_map.mp he with ⟨o, ho, rfl⟩
    refine ⟨o, ho, rfl, rfl, ?_, ?_⟩
    · intro hfail
      cases hr : o.result with
      | ok d => rw [hr] at hfail; simp [CrawlResult.success] at hfail
      | err msg => exact ⟨msg, rfl, by simp [hr, CrawlResult.payload]⟩
    · intro hok
      cases hr : o.result with
      | ok d => exact ⟨d, rfl, by simp [hr, CrawlResult.payload]⟩
      | err msg => rw [hr] at hok; simp [CrawlResult.success] at hok

/-- C4 witness: the error-handling contract instantiated on a concrete
batch where one of two URLs fails. -/
theorem scrapePages_error_handling_witness :
    ((scrapePages_execute (fun u => if u = "a" then .ok "A" else .err "boom")
        (fun _ => false) ["a", "b"] none).error.isSome ↔
      ¬ (bulkCrawlWebsites (fun u => if u = "a" then .ok "A" else .err "boom")
          (fun _ => false) ["a", "b"] none).success = true) ∧
    (ScrapeEntry.mk "b" false "boom") ∈
      (scrapePages_execute (fun u => if u = "a" then .ok "A" else .err "boom")
        (fun _ => false) ["a", "b"] none).results := by
  have h := scrapePages_error_handling (fun u => if u = "a" then .ok "A" else .err "boom")
    (fun _ => false) ["a", "b"] none
  refine ⟨h.1, ?_⟩
  have := h.2.2.1 ⟨"b", .err "boom"⟩ (by decide)
  simpa using this

/-- C3: the code drops the cancellation signal at the scrapePages
boundary.  The executor receives `abortSignal` from the driver but
calls `bulkCrawlWebsites({ urls })` without forwarding it
(`src/unnamed/part_000` line 80; day-3 route line 152), so its result
is identical for every signal state, and a batch run under an
already-fired signal with no fetch yet completed still returns the
real fetch outcomes instead of `Cancelled` failures — contradicting
§4.3/§5, under which the fired signal must make every uncompleted
fetch resolve as a `Cancelled` failure. -/
theorem scrapePages_drops_abort_signal :
    (∀ (fetch : String → CrawlResult) (completed : String → Bool)
      (urls : List String) (s : Option AbortSignal),
      scrapePages_execute fetch completed urls s =
        scrapePages_execute fetch completed urls none) ∧
    (scrapePages_execute (fun _ => .ok "page") (fun _ => false)
        ["https://a.example"] (some ⟨true⟩)).results =
      [⟨"https://a.example", true, "page"⟩] ∧
    (bulkCrawlWebsites (fun _ => .ok "page") (fun _ => false)
        ["https://a.example"] (some ⟨true⟩)).results =
      [⟨"https://a.example", cancelledResult⟩] := by
  refine ⟨fun fetch completed urls s => rfl, by decide, by decide⟩

/-- A conversation message: role (`user`, `assistant`, `tool`) and
textual content. -/
structure Message where
  role : String
  content : String
deriving DecidableEq, Repr, Inhabited

/-- A model-requested tool invocation: tool name plus raw arguments. -/
structure ToolCall where
  name : String
  args : String
deriving DecidableEq, Repr

/-- One model response at a step of the loop: a final text completion
(streamed as chunks), one or more tool invocations, or a
model-invocation failure. -/
inductive ModelResponse where
  | finalText (chunks : List String)
  | toolCalls (calls : List ToolCall)
  | failure (e : String)

/-- Modelled from the spec: the Conversation Driver's bounded step loop
(§4.1), implemented by the `ai` library's `streamText`, which is not
part of the repository snapshot — the repository only configures it.
`oracle` is the model; `execTool` executes one tool invocation into a
result payload.  The fuel argument is the remaining step budget
(`maxSteps` minus the steps already taken).  Returns the number of
model invocations performed and the final message history; reaching
the bound while the model still requests tools terminates the loop
(a resource bound, not an error). -/
def runDriver (oracle : List Message → ModelResponse) (execTool : ToolCall → String) :
    Nat → List Message → Nat × List Message
  | 0, history => (0, history)
  | n + 1, history =>
    match oracle history with
    | .finalText chunks => (1, history ++ [⟨"assistant", String.join chunks⟩])
    | .failure _ => (1, history)
    | .toolCalls calls =>
      let next := runDriver oracle execTool n
        (history ++ calls.map (fun c => ⟨"tool", execTool c⟩))
      (next.1 + 1, next.2)

/-- The `maxSteps` value configured by `streamFromDeepSearch`
(`src/unnamed/part_000` line 27). -/
def streamFromDeepSearch_maxSteps : Nat := 10

/-- The `maxSteps` value configured by the day-3 chat route's
`streamText` call (`02-day-3-app/src/app/api/chat/route.ts` line 93). -/
def day3_chat_maxSteps : Nat := 10

theorem runDriver_count_le (oracle : List Message → ModelResponse)
    (execTool : ToolCall → String) (fuel : Nat) :
    ∀ history, (runDriver oracle execTool fuel history).1 ≤ fuel := by
  induction fuel with
  | zero => intro history; simp [runDriver]
  | succ n ih =>
    intro history
    unfold runDriver
    cases h : oracle history with
    | finalText chunks => simp
    | failure e => simp
    | toolCalls calls => simpa using Nat.succ_le_succ (ih _)

theorem runDriver_count_allTools (calls : List ToolCall)
    (execTool : ToolCall → String) (fuel : Nat) :
    ∀ history,
      (runDriver (fun _ => ModelResponse.toolCalls calls) execTool fuel history).1 = fuel := by
  induction fuel with
  | zero => intro history; simp [runDriver]
  | succ n ih => intro history; simpa [runDriver] using ih _

/-- C1: the Conversation Driver performs at most `maxSteps` model
invocations per request — exactly `maxSteps` when every model response
keeps requesting tools — and both apps configure the loop with
`maxSteps = 10`. -/
theorem driver_bounded_by_maxSteps (oracle : List Message → ModelResponse)
    (execTool : ToolCall → String) (history : List Message) (calls : List ToolCall) :
    (runDriver oracle execTool streamFromDeepSearch_maxSteps history).1 ≤ 10 ∧
    (runDriver oracle execTool day3_chat_maxSteps history).1 ≤ 10 ∧
    (runDriver (fun _ => ModelResponse.toolCalls calls) execTool
      streamFromDeepSearch_maxSteps history).1 = 10 ∧
    streamFromDeepSearch_maxSteps = 10 ∧ day3_chat_maxSteps = 10 :=
  ⟨runDriver_count_le oracle execTool _ history,
   runDriver_count_le oracle execTool _ history,
   runDriver_count_allTools calls execTool _ history, rfl, rfl⟩

/-- Modelled from the spec: one organic result as returned by the
search provider (`searchSerper` lives in `~/serper`, outside the
repository snapshot).  `title`, `link`, `snippet`, `date` are the
fields the normalization reads; `position` and `sitelinks` stand for
the raw provider fields that must not leak into the normalized
output. -/
structure OrganicResult where
  title : String
  link : String
  snippet : String
  date : Option String
  position : Nat
  sitelinks : List String
deriving DecidableEq, Repr

/-- Modelled from the spec: the provider response consumed by the
executors via `results.organic`. -/
structure SerperResponse where
  organic : List OrganicResult
deriving DecidableEq, Repr

/-- A normalized search result as returned by the `searchWeb` executor
of `src/unnamed/part_000` lines 63–68 (and the day-3 route, lines
135–140): exactly the fields `title`, `link`, `snippet`, `date`. -/
structure SearchResultOut where
  title : String
  link : String
  snippet : String
  date : Option String
deriving DecidableEq, Repr

/-- A normalized search result as returned by the day-1 app's
`searchWeb` executor (`01-day-1-app/.../route.ts` lines 64–68):
exactly the fields `title`, `link`, `snippet`. -/
structure SearchResultOutDay1 where
  title : String
  link : String
  snippet : String
deriving DecidableEq, Repr

/-- The per-result projection applied by the part_000/day-3 executor. -/
def normalizeResult (r : OrganicResult) : SearchResultOut :=
  ⟨r.title, r.link, r.snippet, r.date⟩

/-- The per-result projection applied by the day-1 executor. -/
def normalizeResultDay1 (r : OrganicResult) : SearchResultOutDay1 :=
  ⟨r.title, r.link, r.snippet⟩

/-- The `searchWeb.execute` tool executor of `src/unnamed/part_000`
lines 57–69 (identical in the day-3 route): calls the provider with
`{q: query, num: 10}` and the driver's abort signal, then maps each
organic result to `{title, link, snippet, date}`. -/
def searchWeb_execute (provider : String → Nat → Option AbortSignal → SerperResponse)
    (query : String) (abortSignal : Option AbortSignal) : List SearchResultOut :=
  ((provider query 10 abortSignal).organic).map normalizeResult

/-- The day-1 app's `searchWeb.execute`
(`01-day-1-app/.../route.ts` lines 55–69): same provider call, mapping
each organic result to `{title, link, snippet}`. -/
def searchWeb_execute_day1 (provider : String → Nat → Option AbortSignal → SerperResponse)
    (query : String) (abortSignal : Option AbortSignal) : List SearchResultOutDay1 :=
  ((provider query 10 abortSignal).organic).map normalizeResultDay1

theorem searchWeb_execute_length (provider : String → Nat → Option AbortSignal → SerperResponse)
    (query : String) (abortSignal : Option AbortSignal) :
    (searchWeb_execute provider query abortSignal).length =
      (provider query 10 abortSignal).organic.length := by
  simp [searchWeb_execute]

theorem searchWeb_execute_day1_length
    (provider : String → Nat → Option AbortSignal → SerperResponse)
    (query : String) (abortSignal : Option AbortSignal) :
    (searchWeb_execute_day1 provider query abortSignal).length =
      (provider query 10 abortSignal).organic.length := by
  simp [searchWeb_execute_day1]

/-- C5: the searchWeb tool returns exactly one normalized result per
organic provider result, in provider order, with `title`, `link`,
`snippet` copied verbatim; the normalized entry is determined by
`title`/`link`/`snippet` (and the spec's optional published date) alone,
so no other provider field (`position`, `sitelinks`) leaks into the
output.  Holds for both executor variants. -/
theorem searchWeb_normalizes_verbatim
    (provider : String → Nat → Option AbortSignal → SerperResponse)
    (query : String) (abortSignal : Option AbortSignal) :
    (searchWeb_execute provider query abortSignal).length =
      (provider query 10 abortSignal).organic.length ∧
    (∀ i (h : i < (provider query 10 abortSignal).organic.length),
      let src := (provider query 10 abortSignal).organic.get ⟨i, h⟩
      let out := (searchWeb_execute provider query abortSignal).get
        ⟨i, by rw [searchWeb_execute_length]; exact h⟩
      out.title = src.title ∧ out.link = src.link ∧
        out.snippet = src.snippet ∧ out.date = src.date) ∧
    (∀ r r' : OrganicResult, r.title = r'.title → r.link = r'.link →
      r.snippet = r'.snippet → r.date = r'.date →
      normalizeResult r = normalizeResult r') ∧
    (searchWeb_execute_day1 provider query abortSignal).length =
      (provider query 10 abortSignal).organic.length ∧
    (∀ i (h : i < (provider query 10 abortSignal).organic.length),
      let src := (provider query 10 abortSignal).organic.get ⟨i, h⟩
      let out := (searchWeb_execute_day1 provider query abortSignal).get
        ⟨i, by rw [searchWeb_execute_day1_length]; exact h⟩
      out.title = src.title ∧ out.link = src.link ∧ out.snippet = src.snippet) ∧
    (∀ r r' : OrganicResult, r.title = r'.title → r.link = r'.link →
      r.snippet = r'.snippet →
      normalizeResultDay1 r = normalizeResultDay1 r') := by
  refine ⟨searchWeb_execute_length .., ?_, ?_, searchWeb_execute_day1_length .., ?_, ?_⟩
  · intro i h
    simp [searchWeb_execute, normalizeResult]
  · intro r r' ht hl hs hd
    simp [normalizeResult, ht, hl, hs, hd]
  · intro i h
    simp [searchWeb_execute_day1, normalizeResultDay1]
  · intro r r' ht hl hs
    simp [normalizeResultDay1, ht, hl, hs]

/-- C5 witness: a provider returning 10 organic results yields exactly
10 normalized results, the first copied verbatim. -/
theorem searchWeb_normalizes_verbatim_witness :
    (searchWeb_execute
      (fun _ _ _ => ⟨(List.range 10).map
        (fun k => ⟨s!"t{k}", s!"l{k}", s!"s{k}", none, k, []⟩)⟩)
      "foo" none).length = 10 ∧
    ((searchWeb_execute
      (fun _ _ _ => ⟨(List.range 10).map
        (fun k => ⟨s!"t{k}", s!"l{k}", s!"s{k}", none, k, []⟩)⟩)
      "foo" none).get ⟨0, by rw [searchWeb_execute_length]; decide⟩).title = "t0" := by
  have h := searchWeb_normalizes_verbatim
    (fun _ _ _ => ⟨(List.range 10).map
      (fun k => ⟨s!"t{k}", s!"l{k}", s!"s{k}", none, k, []⟩)⟩)
    "foo" none
  refine ⟨by rw [h.1]; decide, ?_⟩
  have h0 := h.2.1 0 (by decide)
  have := h0.1
  simpa using this.trans (by decide)

/-- One observable event of a day-3 chat request, in order of
occurrence: a call to the `upsertChat` storage collaborator
(`final = true` for the one inside the stream's `onFinish` callback),
the `NEW_CHAT_CREATED` sideband data event, a model invocation, a tool
execution, a streamed model text chunk, stream finish, the user-visible
error chunk produced by `onError`, and the closing of the response
stream. -/
inductive Ev where
  | persist (final : Bool) (title : String)
  | sideband (chatId : String)
  | modelCall
  | toolExec (name : String)
  | textChunk (s : String)
  | streamDone
  | errorChunk (s : String)
  | streamClosed
deriving DecidableEq, Repr

/-- Whether an event is one the Driver's step loop itself can emit. -/
def Ev.fromDriver : Ev → Bool
  | .modelCall => true
  | .toolExec _ => true
  | .textChunk _ => true
  | _ => false

/-- Modelled from the spec: the event stream of the Driver's bounded
step loop (§4.1) together with its terminal model-invocation failure,
if any.  Mirrors `runDriver`: each step emits one `modelCall`, then
either streams the final text chunks (terminating normally), stops
with the failure value, or emits one `toolExec` per requested
invocation and recurses on the extended history. -/
def driverStream (oracle : List Message → ModelResponse) (execTool : ToolCall → String) :
    Nat → List Message → List Ev × Option String
  | 0, _ => ([], none)
  | n + 1, history =>
    match oracle history with
    | .finalText chunks => (Ev.modelCall :: chunks.map Ev.textChunk, none)
    | .failure e => ([Ev.modelCall], some e)
    | .toolCalls calls =>
      let rest := driverStream oracle execTool n
        (history ++ calls.map (fun c => ⟨"tool", execTool c⟩))
      ((Ev.modelCall :: calls.map (fun c => Ev.toolExec c.name)) ++ rest.1, rest.2)

/-- The chat title computed at both persistence sites of the day-3
route: `messages[messages.length - 1]!.content.slice(0, 50) + "..."`
(route lines 55 and 191). -/
def chatTitle (content : String) : String := content.take 50 ++ "..."

/-- The day-3 route's `onError` callback (route lines 201–204): a fixed
generic message, independent of the error value. -/
def day3_onError (e : String) : String := "Oops, an error occurred!"

/-- The possible HTTP-level responses of the day-3 `POST` handler. -/
inductive RouteResponse where
  | unauthorized
  | badRequest
  | notFound
  | stream
deriving DecidableEq, Repr

/-- The events emitted inside `createDataStreamResponse.execute` (route
lines 80–205): the `NEW_CHAT_CREATED` sideband data event first when
the request is a new chat, then the driver's stream; on normal finish
the stream completes, `onFinish` persists the merged conversation, and
the stream closes; on a driver error `onError` supplies the single
user-visible error chunk and the stream closes. -/
def day3_streamEvents (isNewChat : Bool) (chatId : String) (title : String)
    (drv : List Ev × Option String) : List Ev :=
  (if isNewChat then [Ev.sideband chatId] else []) ++ drv.1 ++
  (match drv.2 with
   | none => [Ev.streamDone, Ev.persist true title, Ev.streamClosed]
   | some e => [Ev.errorChunk (day3_onError e), Ev.streamClosed])

/-- The day-3 `POST` handler (route lines 25–206), as the pair of its
HTTP response kind and the ordered trace of observable events.
Control flow follows the source: auth check (401), body parse,
empty-message check (400), then for a new chat an immediate
`upsertChat` of the incoming history before the stream is opened,
otherwise an ownership check (404); finally the data-stream response
runs the driver with `maxSteps = 10`. -/
def day3_POST (sessionOk : Bool) (chatOwned : Bool) (messages : List Message)
    (chatId : String) (isNewChat : Bool) (oracle : List Message → ModelResponse)
    (execTool : ToolCall → String) : RouteResponse × List Ev :=
  if !sessionOk then (.unauthorized, [])
  else if messages.isEmpty then (.badRequest, [])
  else
    let title := chatTitle ((messages.getLast?).getD default).content
    if isNewChat then
      (.stream, Ev.persist false title ::
        day3_streamEvents true chatId title
          (driverStream oracle execTool day3_chat_maxSteps messages))
    else if !chatOwned then (.notFound, [])
    else
      (.stream,
        day3_streamEvents false chatId title
          (driverStream oracle execTool day3_chat_maxSteps messages))

theorem driverStream_fromDriver (oracle : List Message → ModelResponse)
    (execTool : ToolCall → String) (fuel : Nat) :
    ∀ history ev, ev ∈ (driverStream oracle execTool fuel history).1 →
      ev.fromDriver = true := by
  induction fuel with
  | zero => intro history ev h; simp [driverStream] at h
  | succ n ih =>
    intro history ev h
    unfold driverStream at h
    cases ho : oracle history with
    | finalText chunks =>
      rw [ho] at h
      rcases List.mem_cons.mp h with h | h
      · simp [h, Ev.fromDriver]
      · rcases List.mem_map.mp h with ⟨s, _, rfl⟩; simp [Ev.fromDriver]
    | failure e =>
      rw [ho] at h
      rcases List.mem_cons.mp h with h | h
      · simp [h, Ev.fromDriver]
      · simp at h
    | toolCalls calls =>
      rw [ho] at h
      simp only [List.cons_append, List.mem_cons, List.mem_append] at h
      rcases h with h | h | h
      · simp [h, Ev.fromDriver]
      · rcases List.mem_map.mp h with ⟨c, _, rfl⟩; simp [Ev.fromDriver]
      · exact ih _ ev h

/-- C9: an authenticated POST whose message list is empty gets a 400
response, with an empty observable trace: no model invocation, no
persistence call, no stream event. -/
theorem emptyMessages_badRequest (chatOwned : Bool) (chatId : String) (isNewChat : Bool)
    (oracle : List Message → ModelResponse) (execTool : ToolCall → String) :
    day3_POST true chatOwned [] chatId isNewChat oracle execTool =
      (RouteResponse.badRequest, []) := by
  simp [day3_POST]

theorem chatTitle_short (content : String) (h : content.length ≤ 50) :
    chatTitle content = content ++ "..." := by
  unfold chatTitle
  rw [String.take_eq]
  congr 1
  cases content with
  | mk data =>
    congr 1
    exact List.take_of_length_le h

theorem persist_mem_streamEvents (isNew : Bool) (chatId title : String)
    (drv : List Ev × Option String)
    (hdrv : ∀ ev ∈ drv.1, ev.fromDriver = true) (b : Bool) (t : String)
    (h : Ev.persist b t ∈ day3_streamEvents isNew chatId title drv) : t = title := by
  unfold day3_streamEvents at h
  rcases List.mem_append.mp h with h | h
  · rcases List.mem_append.mp h with h | h
    · by_cases hn : isNew <;> simp [hn] at h
    · have := hdrv _ h
      simp [Ev.fromDriver] at this
  · cases hd : drv.2 with
    | none => rw [hd] at h; simp at h; exact h.2
    | some e => rw [hd] at h; simp at h

/-- C10: every persistence call the day-3 route makes — the new-chat
save before the loop and the `onFinish` save after it — stores the
title `content.slice(0, 50) + "..."` computed from the last message of
the incoming request history; when that content is 50 characters or
shorter the stored title is the whole content followed by `"..."`. -/
theorem day3_persist_title (sessionOk chatOwned : Bool) (messages : List Message)
    (chatId : String) (isNewChat : Bool) (oracle : List Message → ModelResponse)
    (execTool : ToolCall → String) :
    (∀ b t, Ev.persist b t ∈
        (day3_POST sessionOk chatOwned messages chatId isNewChat oracle execTool).2 →
      t = chatTitle ((messages.getLast?).getD default).content) ∧
    (∀ content : String, content.length ≤ 50 → chatTitle content = content ++ "...") := by
  refine ⟨?_, fun content h => chatTitle_short content h⟩
  intro b t hmem
  unfold day3_POST at hmem
  split at hmem
  · simp at hmem
  split at hmem
  · simp at hmem
  split at hmem
  · rcases List.mem_cons.mp hmem with h | h
    · simp at h; exact h.2
    · exact persist_mem_streamEvents _ _ _ _
        (driverStream_fromDriver oracle execTool day3_chat_maxSteps messages) b t h
  split at hmem
  · simp at hmem
  · exact persist_mem_streamEvents _ _ _ _
      (driverStream_fromDriver oracle execTool day3_chat_maxSteps messages) b t hmem

set_option maxRecDepth 8192 in
/-- C10 witness: on a concrete new-chat request with last content
`"Hello"`, the initial persistence call occurs and its stored title is
`"Hello..."`. -/
theorem day3_persist_title_witness :
    (Ev.persist false "Hello..." ∈
      (day3_POST true true [⟨"user", "Hello"⟩] "c1" true
        (fun _ => ModelResponse.finalText ["Hi"]) (fun _ => "")).2) ∧
    "Hello..." = chatTitle "Hello" := by
  constructor
  · decide
  · exact (day3_persist_title true true [⟨"user", "Hello"⟩] "c1" true
      (fun _ => ModelResponse.finalText ["Hi"]) (fun _ => "")).1 false "Hello..." (by decide)

/-- Whether an event is the `NEW_CHAT_CREATED` sideband data event. -/
def Ev.isSideband : Ev → Bool
  | .sideband _ => true
  | _ => false

theorem sideband_not_mem_driver (oracle : List Message → ModelResponse)
    (execTool : ToolCall → String) (fuel : Nat) (history : List Message) (c : String) :
    Ev.sideband c ∉ (driverStream oracle execTool fuel history).1 := fun h => by
  have := driverStream_fromDriver oracle execTool fuel history _ h
  simp [Ev.fromDriver] at this

theorem persist_not_mem_driver (oracle : List Message → ModelResponse)
    (execTool : ToolCall → String) (fuel : Nat) (history : List Message)
    (b : Bool) (t : String) :
    Ev.persist b t ∉ (driverStream oracle execTool fuel history).1 := fun h => by
  have := driverStream_fromDriver oracle execTool fuel history _ h
  simp [Ev.fromDriver] at this

theorem errorChunk_not_mem_driver (oracle : List Message → ModelResponse)
    (execTool : ToolCall → String) (fuel : Nat) (history : List Message) (s : String) :
    Ev.errorChunk s ∉ (driverStream oracle execTool fuel history).1 := fun h => by
  have := driverStream_fromDriver oracle execTool fuel history _ h
  simp [Ev.fromDriver] at this

theorem sideband_not_mem_tail (drvTwo : Option String) (title : String) (c : String) :
    Ev.sideband c ∉ (match drvTwo with
      | none => [Ev.streamDone, Ev.persist true title, Ev.streamClosed]
      | some e => [Ev.errorChunk (day3_onError e), Ev.streamClosed]) := by
  cases drvTwo <;> simp

/-- C7: on the streaming path, the day-3 route emits the
`NEW_CHAT_CREATED` sideband event exactly once when the request is a
new conversation and never otherwise, and there is a split point of the
trace with every sideband event before it and every model text chunk
after it — the announcement precedes the first text chunk. -/
theorem day3_sideband_once_before_text (chatOwned : Bool) (messages : List Message)
    (chatId : String) (isNewChat : Bool) (oracle : List Message → ModelResponse)
    (execTool : ToolCall → String) (hne : messages ≠ [])
    (hacc : isNewChat = true ∨ chatOwned = true) :
    ((day3_POST true chatOwned messages chatId isNewChat oracle execTool).2.filter
        Ev.isSideband = if isNewChat then [Ev.sideband chatId] else []) ∧
    ∃ k,
      (∀ s, Ev.textChunk s ∉
        (day3_POST true chatOwned messages chatId isNewChat oracle execTool).2.take k) ∧
      (∀ c, Ev.sideband c ∉
        (day3_POST true chatOwned messages chatId isNewChat oracle execTool).2.drop k) := by
  have hflt : (driverStream oracle execTool day3_chat_maxSteps messages).1.filter
      Ev.isSideband = [] := by
    rw [List.filter_eq_nil_iff]
    intro ev hev
    have := driverStream_fromDriver oracle execTool day3_chat_maxSteps messages _ hev
    cases ev <;> simp_all [Ev.fromDriver, Ev.isSideband]
  have hemp : messages.isEmpty = false := by
    cases messages with
    | nil => exact absurd rfl hne
    | cons a l => rfl
  have htailflt : ∀ title,
      (match (driverStream oracle execTool day3_chat_maxSteps messages).2 with
        | none => [Ev.streamDone, Ev.persist true title, Ev.streamClosed]
        | some e => [Ev.errorChunk (day3_onError e), Ev.streamClosed]).filter
          Ev.isSideband = [] := by
    intro title
    cases (driverStream oracle execTool day3_chat_maxSteps messages).2 <;>
      simp [Ev.isSideband]
  cases hn : isNewChat with
  | true =>
    constructor
    · simp only [day3_POST, hemp, hn, Bool.not_true, Bool.false_eq_true, if_false,
        if_true, day3_streamEvents]
      simp [Ev.isSideband, List.filter_append, hflt, htailflt]
    · refine ⟨2, ?_, ?_⟩
      · intro s hmem
        simp only [day3_POST, hemp, hn, Bool.not_true, Bool.false_eq_true, if_false,
          if_true, day3_streamEvents] at hmem
        simp [List.take_succ, List.take_append] at hmem
      · intro c hmem
        simp only [day3_POST, hemp, hn, Bool.not_true, Bool.false_eq_true, if_false,
          if_true, day3_streamEvents] at hmem
        simp [List.drop_append] at hmem
        rcases hmem with h | h
        · exact sideband_not_mem_driver oracle execTool day3_chat_maxSteps messages c h
        · exact sideband_not_mem_tail _ _ c h
  | false =>
    have hown : chatOwned = true := by
      rcases hacc with h | h
      · rw [hn] at h; cases h
      · exact h
    constructor
    · simp only [day3_POST, hemp, hn, hown, Bool.not_true, Bool.false_eq_true, if_false,
        if_true, Bool.not_false, day3_streamEvents]
      simp [Ev.isSideband, List.filter_append, hflt, htailflt]
    · refine ⟨0, ?_, ?_⟩
      · intro s hmem
        simp at hmem
      · intro c hmem
        simp only [day3_POST, hemp, hn, hown, Bool.not_true, Bool.false_eq_true, if_false,
          if_true, Bool.not_false, day3_streamEvents, List.drop_zero] at hmem
        simp at hmem
        rcases hmem with h | h
        · exact sideband_not_mem_driver oracle execTool day3_chat_maxSteps messages c h
        · exact sideband_not_mem_tail _ _ c h

set_option maxRecDepth 8192 in
/-- C7 witness: the sideband guarantee instantiated on a concrete
new-chat request whose model answers with one text chunk. -/
theorem day3_sideband_once_before_text_witness :
    ([⟨"user", "Hello"⟩] : List Message) ≠ [] ∧
    ((day3_POST true true [⟨"user", "Hello"⟩] "c1" true
      (fun _ => ModelResponse.finalText ["Hi"]) (fun _ => "")).2.filter
        Ev.isSideband = [Ev.sideband "c1"]) := by
  constructor
  · decide
  · have h := day3_sideband_once_before_text true [⟨"user", "Hello"⟩] "c1" true
      (fun _ => ModelResponse.finalText ["Hi"]) (fun _ => "") (by decide) (Or.inl rfl)
    simpa using h.1

/-- C8: when the Driver terminates with a model-invocation failure, the
streaming transport emits exactly one user-visible error chunk — the
fixed generic message returned by `onError`, independent of the error
value, never the raw error — and then closes the response stream, with
nothing emitted after the close. -/
theorem day3_single_generic_error_chunk (chatOwned : Bool) (messages : List Message)
    (chatId : String) (isNewChat : Bool) (oracle : List Message → ModelResponse)
    (execTool : ToolCall → String) (e : String) (hne : messages ≠ [])
    (hacc : isNewChat = true ∨ chatOwned = true)
    (herr : (driverStream oracle execTool day3_chat_maxSteps messages).2 = some e) :
    ∃ pre,
      (day3_POST true chatOwned messages chatId isNewChat oracle execTool).2 =
        pre ++ [Ev.errorChunk "Oops, an error occurred!", Ev.streamClosed] ∧
      (∀ s, Ev.errorChunk s ∉ pre) ∧
      (∀ e2 : String, day3_onError e2 = "Oops, an error occurred!") := by
  have hemp : messages.isEmpty = false := by
    cases messages with
    | nil => exact absurd rfl hne
    | cons a l => rfl
  have hnoterr : ∀ s, Ev.errorChunk s ∉
      (driverStream oracle execTool day3_chat_maxSteps messages).1 :=
    fun s => errorChunk_not_mem_driver oracle execTool day3_chat_maxSteps messages s
  cases hn : isNewChat with
  | true =>
    refine ⟨Ev.persist false (chatTitle ((messages.getLast?).getD default).content) ::
      Ev.sideband chatId ::
      (driverStream oracle execTool day3_chat_maxSteps messages).1, ?_, ?_, fun e2 => rfl⟩
    · simp only [day3_POST, hemp, hn, Bool.not_true, Bool.false_eq_true, if_false,
        if_true, day3_streamEvents, herr, day3_onError]
      simp
    · intro s hmem
      rcases List.mem_cons.mp hmem with h | h
      · cases h
      rcases List.mem_cons.mp h with h | h
      · cases h
      exact hnoterr s h
  | false =>
    have hown : chatOwned = true := by
      rcases hacc with h | h
      · rw [hn] at h; cases h
      · exact h
    refine ⟨(driverStream oracle execTool day3_chat_maxSteps messages).1, ?_, hnoterr,
      fun e2 => rfl⟩
    simp only [day3_POST, hemp, hn, hown, Bool.not_true, Bool.false_eq_true, if_false,
      if_true, Bool.not_false, day3_streamEvents, herr, day3_onError]
    simp

set_option maxRecDepth 8192 in
/-- C8 witness: a concrete request whose model call fails with raw
error `"boom"` produces the generic error chunk followed by the stream
close. -/
theorem day3_single_generic_error_chunk_witness :
    (([⟨"user", "Hello"⟩] : List Message) ≠ [] ∧
      (driverStream (fun _ => ModelResponse.failure "boom") (fun _ => "")
        day3_chat_maxSteps [⟨"user", "Hello"⟩]).2 = some "boom") ∧
    ∃ pre,
      (day3_POST true true [⟨"user", "Hello"⟩] "c1" false
        (fun _ => ModelResponse.failure "boom") (fun _ => "")).2 =
        pre ++ [Ev.errorChunk "Oops, an error occurred!", Ev.streamClosed] ∧
      (∀ s, Ev.errorChunk s ∉ pre) ∧
      (∀ e2 : String, day3_onError e2 = "Oops, an error occurred!") := by
  refine ⟨⟨by decide, by decide⟩, ?_⟩
  exact day3_single_generic_error_chunk true [⟨"user", "Hello"⟩] "c1" false
    (fun _ => ModelResponse.failure "boom") (fun _ => "") "boom" (by decide)
    (Or.inr rfl) (by decide)

set_option maxRecDepth 8192 in
/-- C6 counterexample: on a concrete new-chat request the route's very
first observable event — before any model invocation and before the
stream reaches `Done` — is already a persistence call (`upsertChat` of
the incoming history, route lines 51–57), so persistence does not
happen only after the Driver reaches `Done`. -/
theorem day3_persist_before_done_counterexample :
    (day3_POST true true [⟨"user", "Hello"⟩] "c1" true
      (fun _ => ModelResponse.finalText ["Hi"]) (fun _ => "")).2 =
      [Ev.persist false "Hello...", Ev.sideband "c1", Ev.modelCall, Ev.textChunk "Hi",
       Ev.streamDone, Ev.persist true "Hello...", Ev.streamClosed] ∧
    (day3_POST true true [⟨"user", "Hello"⟩] "c1" true
      (fun _ => ModelResponse.finalText ["Hi"]) (fun _ => "")).2.get? 0 =
      some (Ev.persist false "Hello...") ∧
    Ev.streamDone ∉ (day3_POST true true [⟨"user", "Hello"⟩] "c1" true
      (fun _ => ModelResponse.finalText ["Hi"]) (fun _ => "")).2.take 0 := by
  refine ⟨by decide, by decide, by decide⟩

theorem persist_pos_after_done (title : String) :
    ∀ (pre : List Ev), (∀ b t, Ev.persist b t ∉ pre) →
    ∀ (j : Nat) (b : Bool) (t : String),
      (pre ++ [Ev.streamDone, Ev.persist true title, Ev.streamClosed]).get? j =
        some (Ev.persist b t) →
      Ev.streamDone ∈
        (pre ++ [Ev.streamDone, Ev.persist true title, Ev.streamClosed]).take j := by
  intro pre
  induction pre with
  | nil =>
    intro _ j b t hget
    match j with
    | 0 => simp at hget
    | 1 => simp
    | 2 => simp at hget
    | (j3 + 3) => simp at hget
  | cons p pre' ih =>
    intro hpre j b t hget
    match j with
    | 0 =>
      simp at hget
      exact absurd (by rw [hget]; exact List.mem_cons_self _ _) (hpre b t)
    | (j1 + 1) =>
      have hpre' : ∀ b t, Ev.persist b t ∉ pre' :=
        fun b t h => hpre b t (List.mem_cons_of_mem _ h)
      have hrec := ih hpre' j1 b t (by simpa using hget)
      simpa [List.take_succ_cons] using Or.inr hrec

theorem persist_not_mem_streamEvents_err (isNew : Bool) (chatId title : String)
    (drv : List Ev × Option String) (hdrv : ∀ ev ∈ drv.1, ev.fromDriver = true)
    (e : String) (hd : drv.2 = some e) (b : Bool) (t : String) :
    Ev.persist b t ∉ day3_streamEvents isNew chatId title drv := by
  intro h
  unfold day3_streamEvents at h
  rw [hd] at h
  rcases List.mem_append.mp h with h | h
  · rcases List.mem_append.mp h with h | h
    · cases isNew <;> simp at h
    · have := hdrv _ h
      simp [Ev.fromDriver] at this
  · simp at h

theorem persist_get_streamEvents (isNew : Bool) (chatId title : String)
    (drv : List Ev × Option String) (hdrv : ∀ ev ∈ drv.1, ev.fromDriver = true)
    (j : Nat) (b : Bool) (t : String)
    (hget : (day3_streamEvents isNew chatId title drv).get? j = some (Ev.persist b t)) :
    Ev.streamDone ∈ (day3_streamEvents isNew chatId title drv).take j := by
  cases hd : drv.2 with
  | some e =>
    exfalso
    have hmem : Ev.persist b t ∈ day3_streamEvents isNew chatId title drv :=
      List.get?_mem hget
    exact persist_not_mem_streamEvents_err isNew chatId title drv hdrv e hd b t hmem
  | none =>
    have hpre : ∀ b2 t2, Ev.persist b2 t2 ∉
        (if isNew then [Ev.sideband chatId] else []) ++ drv.1 := by
      intro b2 t2 h
      rcases List.mem_append.mp h with h | h
      · cases isNew <;> simp at h
      · have := hdrv _ h
        simp [Ev.fromDriver] at this
    have heq : day3_streamEvents isNew chatId title drv =
        ((if isNew then [Ev.sideband chatId] else []) ++ drv.1) ++
          [Ev.streamDone, Ev.persist true title, Ev.streamClosed] := by
      unfold day3_streamEvents
      rw [hd]
    rw [heq] at hget ⊢
    exact persist_pos_after_done title _ hpre j b t hget

theorem day3_trace_new (chatOwned : Bool) (messages : List Message) (chatId : String)
    (oracle : List Message → ModelResponse) (execTool : ToolCall → String)
    (hemp : messages.isEmpty = false) :
    (day3_POST true chatOwned messages chatId true oracle execTool).2 =
      Ev.persist false (chatTitle ((messages.getLast?).getD default).content) ::
        day3_streamEvents true chatId
          (chatTitle ((messages.getLast?).getD default).content)
          (driverStream oracle execTool day3_chat_maxSteps messages) := by
  simp [day3_POST, hemp]

theorem day3_trace_old (messages : List Message) (chatId : String)
    (oracle : List Message → ModelResponse) (execTool : ToolCall → String)
    (hemp : messages.isEmpty = false) :
    (day3_POST true true messages chatId false oracle execTool).2 =
      day3_streamEvents false chatId
        (chatTitle ((messages.getLast?).getD default).content)
        (driverStream oracle execTool day3_chat_maxSteps messages) := by
  simp [day3_POST, hemp]

/-- C6 (amended): the day-3 route persists only outside the Driver's
step loop — every persistence call in a request's trace occurs either
before any model invocation (the new-chat save of the incoming history,
made before the stream is opened) or after the stream reaches `Done`
(the `onFinish` save); never between model invocations. -/
theorem day3_persist_outside_loop (sessionOk chatOwned : Bool) (messages : List Message)
    (chatId : String) (isNewChat : Bool) (oracle : List Message → ModelResponse)
    (execTool : ToolCall → String) :
    ∀ (i : Nat) (b : Bool) (t : String),
      (day3_POST sessionOk chatOwned messages chatId isNewChat oracle execTool).2.get? i =
        some (Ev.persist b t) →
      Ev.modelCall ∉
        (day3_POST sessionOk chatOwned messages chatId isNewChat oracle execTool).2.take i ∨
      Ev.streamDone ∈
        (day3_POST sessionOk chatOwned messages chatId isNewChat oracle execTool).2.take i := by
  intro i b t hget
  have hdrv := driverStream_fromDriver oracle execTool day3_chat_maxSteps messages
  cases hs : sessionOk with
  | false =>
    rw [hs] at hget
    have hnil : (day3_POST false chatOwned messages chatId isNewChat oracle execTool).2 =
        [] := by simp [day3_POST]
    rw [hnil] at hget
    simp at hget
  | true =>
    rw [hs] at hget
    cases hemp : messages.isEmpty with
    | true =>
      have hnil : (day3_POST true chatOwned messages chatId isNewChat oracle execTool).2 =
          [] := by simp [day3_POST, hemp]
      rw [hnil] at hget
      simp at hget
    | false =>
      cases hn : isNewChat with
      | true =>
        rw [hn] at hget
        rw [day3_trace_new chatOwned messages chatId oracle execTool hemp] at hget ⊢
        match i with
        | 0 => left; simp
        | (i1 + 1) =>
          right
          have hrec := persist_get_streamEvents true chatId
            (chatTitle ((messages.getLast?).getD default).content)
            (driverStream oracle execTool day3_chat_maxSteps messages) hdrv i1 b t
            (by simpa using hget)
          rw [List.take_succ_cons]
          exact List.mem_cons_of_mem _ hrec
      | false =>
        rw [hn] at hget
        cases hown : chatOwned with
        | false =>
          rw [hown] at hget
          have hnil : (day3_POST true false messages chatId false oracle execTool).2 =
              [] := by simp [day3_POST, hemp]
          rw [hnil] at hget
          simp at hget
        | true =>
          rw [hown] at hget
          rw [day3_trace_old messages chatId oracle execTool hemp] at hget ⊢
          exact Or.inr (persist_get_streamEvents false chatId
            (chatTitle ((messages.getLast?).getD default).content)
            (driverStream oracle execTool day3_chat_maxSteps messages) hdrv i b t hget)

set_option maxRecDepth 8192 in
/-- C6 witness: the amended guarantee applied at the `onFinish`
persistence call of a concrete run — the persist at index 5 has the
stream's `Done` among the events preceding it. -/
theorem day3_persist_outside_loop_witness :
    (day3_POST true true [⟨"user", "Hello"⟩] "c1" true
      (fun _ => ModelResponse.finalText ["Hi"]) (fun _ => "")).2.get? 5 =
      some (Ev.persist true "Hello...") ∧
    (Ev.modelCall ∉ (day3_POST true true [⟨"user", "Hello"⟩] "c1" true
        (fun _ => ModelResponse.finalText ["Hi"]) (fun _ => "")).2.take 5 ∨
      Ev.streamDone ∈ (day3_POST true true [⟨"user", "Hello"⟩] "c1" true
        (fun _ => ModelResponse.finalText ["Hi"]) (fun _ => "")).2.take 5) :=
  ⟨by decide, day3_persist_outside_loop true true [⟨"user", "Hello"⟩] "c1" true
    (fun _ => ModelResponse.finalText ["Hi"]) (fun _ => "") 5 true "Hello..." (by decide)⟩

end DeepResearch
